import Mathlib

/-!
Shallow embedding of the ITC marketing dashboard (Streamlit, Python) for
verification of its natural-language specification.

Sources embedded:
- `src/pages/1_Diagnostics.py`: `generate_ai_insight`, the per-metric
  percent-change ("delta") computations, and the previous-period window.
- `src/pages/2_Forecaster.py`: the budget-allocation tail of
  `allocate_budget_based_on_goal` (the per-segment Prophet forecasts are an
  external library; its outputs enter here as the per-segment
  `Predicted_Performance` scores).
- `src/pages/3_Live_Alerts.py`: `load_live_status`, `resolve_issue`, the
  session-scoped `resolved_timestamps` exclusion set, the `live_df`
  computation, and the auto/manual resolution branches.

Conventions: pandas/Python floats are modelled as `Option ℚ`, with `none`
standing for NaN/missing (pandas `mean` skips missing values; a mean over no
values is missing). Calendar dates are day numbers in `ℤ` (pandas normalized
Timestamps subtract to whole days). External effects (the webhook POST, the
Google-Sheets client) are modelled by explicit outcome parameters and an
explicit sheet state threaded through the functions.
-/

namespace ITCDash

/-- One row of the campaign table, restricted to the columns
`generate_ai_insight` reads. Each numeric cell is `Option ℚ`
(`none` = NaN/missing after ingestion). -/
structure CampaignRow where
  actualROAS : Option ℚ
  targetROAS : Option ℚ
  actualCPC : Option ℚ
  targetCPC : Option ℚ
  actualCTR : Option ℚ
  targetCTR : Option ℚ
deriving DecidableEq, Repr

/-- pandas column mean with skipna semantics: the mean of the present
values, missing when no value is present. -/
def colMean (f : CampaignRow → Option ℚ) (df : List CampaignRow) : Option ℚ :=
  let vals := df.filterMap f
  if vals.isEmpty then none else some (vals.sum / vals.length)

/-- The guarded performance-ratio expression used three times in
`generate_ai_insight` (1_Diagnostics.py:88,94,97):
`num / den if den and not pd.isna(den) else 0`.
A zero or missing denominator yields the Python literal `0`; a missing
numerator over a good denominator yields NaN (`none`). -/
def perfQuotient (num den : Option ℚ) : Option ℚ :=
  match den with
  | none => some 0
  | some d => if d = 0 then some 0 else
      match num with
      | none => none
      | some n => some (n / d)

/-- Python `x < c` where `x` may be NaN: NaN compares false. -/
def nanLt (x : Option ℚ) (c : ℚ) : Bool :=
  match x with
  | none => false
  | some v => decide (v < c)

/-- The root-cause branch chosen by `generate_ai_insight`
(1_Diagnostics.py:99-108). The emitted strings interpolate the ratio
values; only the branch identity is modelled. -/
inductive Cause where
  | insufficientData
  | highCPC
  | lowCTR
  | postClickConversion
  | strongPerformance
deriving DecidableEq, Repr

/-- The recommendation branch of `generate_ai_insight`
(1_Diagnostics.py:110-114). -/
inductive Recommendation where
  | insufficientData
  | reallocateBudget
  | scaleTopPerformers
deriving DecidableEq, Repr

/-- `roas_performance` as computed at 1_Diagnostics.py:86-88. -/
def roasPerformance (df : List CampaignRow) : Option ℚ :=
  perfQuotient (colMean (·.actualROAS) df) (colMean (·.targetROAS) df)

/-- `cpc_performance` as computed at 1_Diagnostics.py:92-94
(inverted: `target_cpc / avg_cpc`, denominator is the mean Actual_CPC). -/
def cpcPerformance (df : List CampaignRow) : Option ℚ :=
  perfQuotient (colMean (·.targetCPC) df) (colMean (·.actualCPC) df)

/-- `ctr_performance` as computed at 1_Diagnostics.py:95-97. -/
def ctrPerformance (df : List CampaignRow) : Option ℚ :=
  perfQuotient (colMean (·.actualCTR) df) (colMean (·.targetCTR) df)

/-- `generate_ai_insight` (1_Diagnostics.py:81-116), reduced to its
decision structure: the early insufficient-data return, then the fixed
decision tree over the three guarded ratios with threshold 0.95. -/
def generate_ai_insight (df : List CampaignRow) : Cause × Recommendation :=
  if df.length < 1 then (.insufficientData, .insufficientData)
  else
    let roas_performance := roasPerformance df
    let cpc_performance := cpcPerformance df
    let ctr_performance := ctrPerformance df
    let cause : Cause :=
      if nanLt roas_performance (95/100) then
        if nanLt cpc_performance (95/100) then .highCPC
        else if nanLt ctr_performance (95/100) then .lowCTR
        else .postClickConversion
      else .strongPerformance
    let recommendation : Recommendation :=
      if nanLt roas_performance (95/100) then .reallocateBudget
      else .scaleTopPerformers
    (cause, recommendation)

/-- The shared percent-change ("delta") expression used for every summary
metric at 1_Diagnostics.py:203,212,220,229,238,246:
`0 if pd.isna(prev) or prev == 0 else ((cur - prev) / prev) * 100`. -/
def pctDelta (cur prev : Option ℚ) : Option ℚ :=
  match prev with
  | none => some 0
  | some p => if p = 0 then some 0 else
      match cur with
      | none => none
      | some c => some ((c - p) / p * 100)

/-- The previous-period window computed at 1_Diagnostics.py:188-190:
`period_duration = (end - start).days`,
`prev_start = start - (period_duration + 1) days`,
`prev_end = start - 1 day`. Dates are day numbers. -/
def previousPeriod (start_date end_date : ℤ) : ℤ × ℤ :=
  let period_duration := end_date - start_date
  (start_date - (period_duration + 1), start_date - 1)

/-! ### Forecaster: budget allocation (2_Forecaster.py) -/

/-- One entry of the `results` list built at 2_Forecaster.py:65-80: a
segment (ad type) together with its forecast score
`Predicted_Performance` (mean of the last 7 `yhat` values of the external
Prophet forecast; the forecast itself is outside this system and its output
enters here as an arbitrary rational). Segments with fewer than 5 history
rows were skipped and never reach this list. -/
structure SegmentScore where
  adType : String
  predicted : ℚ
deriving DecidableEq, Repr

/-- One output row of `allocate_budget_based_on_goal`: AdType,
Predicted_Performance, Recommended_Budget. -/
structure AllocationRow where
  adType : String
  predicted : ℚ
  recommendedBudget : ℚ
deriving DecidableEq, Repr

/-- The allocation tail of `allocate_budget_based_on_goal`
(2_Forecaster.py:82-95): `None` on an empty results list; otherwise the
budget column is `Predicted_Performance / total_performance_score *
total_budget` when the score total is positive, else the equal split
`total_budget / len(results)`; the rows are returned sorted by
Recommended_Budget descending (pandas `sort_values(ascending=False)`;
modelled by a comparison sort on the same key). -/
def allocate_budget_based_on_goal (total_budget : ℚ) (results : List SegmentScore) :
    Option (List AllocationRow) :=
  if results.isEmpty then none
  else
    let total_performance_score := (results.map (·.predicted)).sum
    let rows : List AllocationRow :=
      if total_performance_score > 0 then
        results.map fun r =>
          ⟨r.adType, r.predicted, r.predicted / total_performance_score * total_budget⟩
      else
        results.map fun r => ⟨r.adType, r.predicted, total_budget / (results.length : ℚ)⟩
    some (List.insertionSort (fun a b => a.recommendedBudget ≥ b.recommendedBudget) rows)

/-! ### Live Alerts: issue queue (3_Live_Alerts.py) -/

/-- One row of the issue-queue sheet (3_Live_Alerts.py); Timestamp is the
identity key, Status is "Pending" or "Resolved". -/
structure IssueRow where
  timestamp : ℕ
  product : String
  sku : String
  city : String
  issueType : String
  details : String
  status : String
deriving DecidableEq, Repr

/-- The two credential sources (3_Live_Alerts.py:25-31 and :74):
whether the deployed secret configuration (`st.secrets["connections"]["gcs"]`)
is present, and whether a valid local `gcp_secrets.json` file is readable. -/
structure DeployEnv where
  deployedSecrets : Bool
  localCredFile : Bool
deriving DecidableEq, Repr

/-- Outcome of the outbound webhook POST (3_Live_Alerts.py:71): either it
returns (any HTTP status; the response is not checked) or it raises
(connection error / timeout). -/
inductive PostOutcome where
  | ok
  | raiseErr
deriving DecidableEq, Repr

/-- Session state: the session-scoped exclusion list
`st.session_state.resolved_timestamps` (3_Live_Alerts.py:12-13). -/
structure SessionState where
  resolved_timestamps : List ℕ
deriving DecidableEq, Repr

/-- `load_live_status` (3_Live_Alerts.py:17-53): authenticates via the
deployed secrets when present, else via the local credential file, fetches
all rows and keeps those with Status == "Pending". On failure the code
surfaces an error and returns an empty table; the surfaced-failure path is
modelled as `none`. -/
def load_live_status (env : DeployEnv) (sheetRows : List IssueRow) :
    Option (List IssueRow) :=
  if env.deployedSecrets || env.localCredFile then
    some (sheetRows.filter (fun r => r.status == "Pending"))
  else
    none

/-- `sheet.update_cell` after `sheet.find(str(Timestamp))`
(3_Live_Alerts.py:76-81): writes Status="Resolved" on the first row whose
Timestamp matches. -/
def resolveFirst (sheetRows : List IssueRow) (ts : ℕ) : List IssueRow :=
  match sheetRows with
  | [] => []
  | r :: rest =>
    if r.timestamp = ts then { r with status := "Resolved" } :: rest
    else r :: resolveFirst rest ts

/-- `resolve_issue` (3_Live_Alerts.py:55-86). The whole body is one
`try`: when `is_auto_resolve`, the webhook POST runs first and a raising
POST is caught by the shared handler at line 83, returning False with the
sheet untouched; the sheet client is then built from the local credential
file only (line 74) — a missing/invalid file also raises into the same
handler; finally the row is located by Timestamp and, if found, written
Resolved (a not-found cell skips the write but still returns True). -/
def resolve_issue (env : DeployEnv) (post : PostOutcome) (sheetRows : List IssueRow)
    (issue_row : IssueRow) (is_auto_resolve : Bool) : Bool × List IssueRow :=
  if is_auto_resolve && post == .raiseErr then
    (false, sheetRows)
  else if !env.localCredFile then
    (false, sheetRows)
  else if sheetRows.any (fun r => r.timestamp = issue_row.timestamp) then
    (true, resolveFirst sheetRows issue_row.timestamp)
  else
    (true, sheetRows)

/-- pandas `DataFrame.tail n`: the last `n` rows in order. -/
def tailN (n : ℕ) (l : List α) : List α := l.drop (l.length - n)

/-- `live_df` (3_Live_Alerts.py:96): the pending rows minus those whose
Timestamp is in the session exclusion list, capped with `.tail(5)`. -/
def live_df (all_pending : List IssueRow) (sess : SessionState) : List IssueRow :=
  tailN 5 (all_pending.filter (fun r => !sess.resolved_timestamps.contains r.timestamp))

/-- The listing pipeline one page run performs (3_Live_Alerts.py:93-96):
load the queue (an authentication failure yields the empty table), then
apply the session exclusion and the 5-row display cap. -/
def list_pending (env : DeployEnv) (sheetRows : List IssueRow) (sess : SessionState) :
    List IssueRow :=
  live_df ((load_live_status env sheetRows).getD []) sess

/-- One run of the auto-resolve branch (3_Live_Alerts.py:104-127):
take the first row of `live_df`, call `resolve_issue` with
`is_auto_resolve=True`; on success append its Timestamp to the session
exclusion list (line 123); on failure the session list is unchanged.
Returns the new session state and sheet state. -/
def autoResolveStep (env : DeployEnv) (post : PostOutcome) (sheetRows : List IssueRow)
    (sess : SessionState) : SessionState × List IssueRow :=
  let all_pending := (load_live_status env sheetRows).getD []
  match live_df all_pending sess with
  | [] => (sess, sheetRows)
  | top_issue :: _ =>
    match resolve_issue env post sheetRows top_issue true with
    | (true, rows) =>
      ({ resolved_timestamps := sess.resolved_timestamps ++ [top_issue.timestamp] }, rows)
    | (false, rows) => (sess, rows)

/-- One run of the manual branch with a click on `row`
(3_Live_Alerts.py:129-148): the branch first RESETS the session exclusion
list to `[]` (line 131); the click then calls `resolve_issue` with
`is_auto_resolve=False` (so the `post` outcome is never consulted) and, on
success, only reruns — the Timestamp is never appended to the exclusion
list. Returns the new session state, sheet state, and the resolve result. -/
def manualResolveStep (env : DeployEnv) (post : PostOutcome) (sheetRows : List IssueRow)
    (_sess : SessionState) (row : IssueRow) : SessionState × List IssueRow × Bool :=
  let sessReset : SessionState := { resolved_timestamps := [] }
  match resolve_issue env post sheetRows row false with
  | (okFlag, rows) => (sessReset, rows, okFlag)

/-- Helper for concrete queue states in examples: a Pending issue row with
the given Timestamp. -/
def mkIssue (ts : ℕ) (status : String) : IssueRow :=
  ⟨ts, "Aashirvaad Atta", "SKU1", "Mumbai", "OOS", "det", status⟩

end ITCDash

namespace ITCDash

/-- Helper: summing `p / T * B` over a list of rationals. -/
theorem sum_map_div_mul (l : List ℚ) (T B : ℚ) :
    (l.map (fun p => p / T * B)).sum = l.sum / T * B := by
  induction l with
  | nil => simp
  | cons a t ih =>
    simp only [List.map_cons, List.sum_cons, ih]
    ring

/-- Helper: the budget column of the rows produced by
`allocate_budget_based_on_goal` sums to the total budget (before sorting,
which only permutes the rows). -/
theorem allocate_rows_sum (B : ℚ) (results : List SegmentScore) (hne : results ≠ [])
    (rows : List AllocationRow)
    (hrows : allocate_budget_based_on_goal B results = some rows) :
    (rows.map (·.recommendedBudget)).sum = B := by
  have hempty : results.isEmpty = false := by
    simp [List.isEmpty_iff, hne]
  unfold allocate_budget_based_on_goal at hrows
  rw [hempty] at hrows
  simp only [Bool.false_eq_true, if_false, Option.some.injEq] at hrows
  subst hrows
  set T := (results.map (·.predicted)).sum with hT
  by_cases hpos : T > 0
  · rw [if_pos hpos]
    have hperm :
        ((List.insertionSort (fun a b => a.recommendedBudget ≥ b.recommendedBudget)
            (results.map fun r =>
              (⟨r.adType, r.predicted, r.predicted / T * B⟩ : AllocationRow))).map
          (·.recommendedBudget)).sum =
        (((results.map fun r =>
              (⟨r.adType, r.predicted, r.predicted / T * B⟩ : AllocationRow))).map
          (·.recommendedBudget)).sum :=
      ((List.perm_insertionSort _ _).map _).sum_eq
    rw [hperm, List.map_map]
    have : ((·.recommendedBudget) ∘ fun r : SegmentScore =>
        (⟨r.adType, r.predicted, r.predicted / T * B⟩ : AllocationRow)) =
        fun r : SegmentScore => r.predicted / T * B := rfl
    rw [this]
    have hmm : (results.map fun r : SegmentScore => r.predicted / T * B) =
        (results.map (·.predicted)).map (fun p => p / T * B) := by
      rw [List.map_map]; rfl
    rw [hmm, sum_map_div_mul, ← hT, div_self (ne_of_gt hpos), one_mul]
  · rw [if_neg hpos]
    have hperm :
        ((List.insertionSort (fun a b => a.recommendedBudget ≥ b.recommendedBudget)
            (results.map fun r =>
              (⟨r.adType, r.predicted, B / (results.length : ℚ)⟩ : AllocationRow))).map
          (·.recommendedBudget)).sum =
        (((results.map fun r =>
              (⟨r.adType, r.predicted, B / (results.length : ℚ)⟩ : AllocationRow))).map
          (·.recommendedBudget)).sum :=
      ((List.perm_insertionSort _ _).map _).sum_eq
    rw [hperm, List.map_map]
    have : ((·.recommendedBudget) ∘ fun r : SegmentScore =>
        (⟨r.adType, r.predicted, B / (results.length : ℚ)⟩ : AllocationRow)) =
        fun _ : SegmentScore => B / (results.length : ℚ) := rfl
    rw [this]
    have hlen : (results.map fun _ : SegmentScore => B / (results.length : ℚ)).sum =
        (results.length : ℚ) * (B / (results.length : ℚ)) := by
      induction results with
      | nil => simp
      | cons a t ih => simp_all [add_mul]; ring
    rw [hlen]
    have hn : (results.length : ℚ) ≠ 0 :=
      Nat.cast_ne_zero.mpr (fun h0 => hne (List.length_eq_zero.mp h0))
    field_simp

/-- C4: for every non-empty set of eligible segments and any total budget,
the Recommended_Budget values returned by the allocation sum to the
requested total budget, in both the proportional branch and the
equal-split fallback branch (exact over ℚ, hence within floating-point
tolerance). -/
theorem allocate_budgets_sum_to_total (B : ℚ) (results : List SegmentScore)
    (hne : results ≠ []) :
    ∀ rows, allocate_budget_based_on_goal B results = some rows →
      (rows.map (·.recommendedBudget)).sum = B :=
  fun rows hrows => allocate_rows_sum B results hne rows hrows

/-- Witness for C4: one segment with score 1 and budget 100 allocates
exactly 100 in total. -/
theorem allocate_budgets_sum_to_total_witness :
    (([(⟨"A", 1, 100⟩ : AllocationRow)]).map (·.recommendedBudget)).sum = 100 :=
  allocate_budgets_sum_to_total 100 [⟨"A", 1⟩] (by simp) [⟨"A", 1, 100⟩]
    (by norm_num [allocate_budget_based_on_goal, List.insertionSort, List.orderedInsert])

/-- C2 counterexample: the claim says the allocation "never produces a
negative or zero Recommended_Budget for any segment"; but scores are not
clamped to non-negative. With budget 100 and raw scores A = -1, B = 2
(total 1 > 0, so the proportional branch runs), segment A receives the
negative budget -100. -/
theorem allocate_negative_budget_cex :
    ¬ (∀ rows, allocate_budget_based_on_goal 100 [⟨"A", -1⟩, ⟨"B", 2⟩] = some rows →
        ∀ row ∈ rows, 0 < row.recommendedBudget) := by
  intro h
  have heval : allocate_budget_based_on_goal 100 [⟨"A", -1⟩, ⟨"B", 2⟩] =
      some [⟨"B", 2, 200⟩, ⟨"A", -1, -100⟩] := by
    norm_num [allocate_budget_based_on_goal, List.insertionSort, List.orderedInsert]
  have hneg := h _ heval ⟨"A", -1, -100⟩ (by simp)
  norm_num at hneg

/-- C2 amended: the allocation splits total_budget proportionally to each
segment's RAW predicted score (scores are not clamped); whenever every
eligible segment's score is positive and the budget is positive, every
Recommended_Budget is positive and equals the segment's score share of the
budget. (Segments with zero or negative scores can receive zero or
negative allocations, as the counterexample shows.) -/
theorem allocate_proportional_raw_scores (B : ℚ) (results : List SegmentScore)
    (hB : 0 < B) (hpos : ∀ r ∈ results, 0 < r.predicted) (hne : results ≠ []) :
    ∀ rows, allocate_budget_based_on_goal B results = some rows →
      ∀ row ∈ rows, 0 < row.recommendedBudget ∧
        row.recommendedBudget =
          row.predicted / (results.map (·.predicted)).sum * B := by
  intro rows hrows row hrow
  have hempty : results.isEmpty = false := by simp [List.isEmpty_iff, hne]
  have hT : 0 < (results.map (·.predicted)).sum := by
    apply List.sum_pos
    · intro x hx
      obtain ⟨r, hr, rfl⟩ := List.mem_map.mp hx
      exact hpos r hr
    · intro h0
      exact hne (List.map_eq_nil_iff.mp h0)
  unfold allocate_budget_based_on_goal at hrows
  rw [hempty] at hrows
  simp only [Bool.false_eq_true, if_false, Option.some.injEq] at hrows
  rw [if_pos hT] at hrows
  subst hrows
  rw [List.mem_insertionSort] at hrow
  obtain ⟨r, hr, rfl⟩ := List.mem_map.mp hrow
  exact ⟨mul_pos (div_pos (hpos r hr) hT) hB, rfl⟩

/-- Witness for C2's amended theorem: one segment with score 1 and budget
100 receives a positive allocation equal to its full share. -/
theorem allocate_proportional_raw_scores_witness :
    0 < (⟨"A", 1, 100⟩ : AllocationRow).recommendedBudget ∧
      (⟨"A", 1, 100⟩ : AllocationRow).recommendedBudget =
        (⟨"A", 1, 100⟩ : AllocationRow).predicted /
          (([(⟨"A", 1⟩ : SegmentScore)]).map (·.predicted)).sum * 100 :=
  allocate_proportional_raw_scores 100 [⟨"A", 1⟩] (by norm_num)
    (by intro r hr; rw [List.mem_singleton] at hr; subst hr; norm_num) (by simp)
    [⟨"A", 1, 100⟩]
    (by norm_num [allocate_budget_based_on_goal, List.insertionSort, List.orderedInsert])
    ⟨"A", 1, 100⟩ (by simp)

/-- C5: for every start and end date with start ≤ end, the previous-period
computation yields a window of identical length immediately preceding start:
prev_end = start - 1 day and prev_end - prev_start = end - start. -/
theorem previousPeriod_adjacent_equal_length (s e : ℤ) (h : s ≤ e) :
    (previousPeriod s e).2 = s - 1 ∧
      (previousPeriod s e).2 - (previousPeriod s e).1 = e - s := by
  constructor
  · rfl
  · show s - 1 - (s - (e - s + 1)) = e - s
    ring

/-- Witness for C5 at start = 10, end = 17. -/
theorem previousPeriod_adjacent_equal_length_witness :
    (previousPeriod 10 17).2 = 10 - 1 ∧
      (previousPeriod 10 17).2 - (previousPeriod 10 17).1 = 17 - 10 :=
  previousPeriod_adjacent_equal_length 10 17 (by decide)

/-- C7: the percent-change is exactly 0 whenever the prior-period aggregate
is missing or zero, for any current value; otherwise it equals
(current - previous) / previous * 100. -/
theorem pctDelta_zero_floor_and_formula (cur prev : Option ℚ) :
    ((prev = none ∨ prev = some 0) → pctDelta cur prev = some 0) ∧
      (∀ p c, prev = some p → p ≠ 0 → cur = some c →
        pctDelta cur prev = some ((c - p) / p * 100)) := by
  constructor
  · rintro (rfl | rfl)
    · rfl
    · simp [pctDelta]
  · rintro p c rfl hp rfl
    simp [pctDelta, hp]

/-- Witness for C7: zero prior gives delta 0; prior 4 with current 5 gives
25 percent. -/
theorem pctDelta_zero_floor_and_formula_witness :
    pctDelta (some 7) (some 0) = some 0 ∧
      pctDelta (some 5) (some 4) = some ((5 - 4) / 4 * 100) :=
  ⟨(pctDelta_zero_floor_and_formula (some 7) (some 0)).1 (Or.inr rfl),
    (pctDelta_zero_floor_and_formula (some 5) (some 4)).2 4 5 rfl
      (by norm_num) rfl⟩

end ITCDash

namespace ITCDash

/-- Helper: the guarded ratio is the literal 0 whenever its denominator is
zero or missing. -/
theorem perfQuotient_zero_denominator (num den : Option ℚ)
    (h : den = none ∨ den = some 0) : perfQuotient num den = some 0 := by
  rcases h with rfl | rfl <;> simp [perfQuotient]

/-- C6: for every table with at least one row on which the computed
roas_perf is ≥ 0.95, the insight engine returns the "strong performance"
cause, regardless of the values of cpc_perf and ctr_perf. -/
theorem insight_strong_when_roas_on_target (df : List CampaignRow) (r : ℚ)
    (hne : df ≠ []) (hr : roasPerformance df = some r) (hge : 95/100 ≤ r) :
    (generate_ai_insight df).1 = Cause.strongPerformance := by
  have hlen : ¬ df.length < 1 := by
    simp [Nat.lt_one_iff, List.length_eq_zero, hne]
  have hlt : nanLt (roasPerformance df) (95/100) = false := by
    rw [hr]
    simp [nanLt, not_lt.mpr hge]
  simp [generate_ai_insight, hlen, hlt]

/-- Witness for C6: one row with Actual_ROAS = Target_ROAS = 1 gives
roas_perf = 1 ≥ 0.95 and the strong-performance cause. -/
theorem insight_strong_when_roas_on_target_witness :
    (generate_ai_insight [⟨some 1, some 1, none, none, none, none⟩]).1 =
      Cause.strongPerformance :=
  insight_strong_when_roas_on_target [⟨some 1, some 1, none, none, none, none⟩] 1
    (by simp)
    (by norm_num [roasPerformance, colMean, perfQuotient, List.filterMap_cons,
      List.filterMap_nil])
    (by norm_num)

/-- C10: the insight engine never divides by a zero or missing
denominator: each guarded ratio is the literal 0 when its denominator
(mean Target_ROAS, mean Actual_CPC, mean Target_CTR respectively) is zero
or missing; in particular, when the mean Actual_CPC is zero or missing and
roas_perf < 0.95, cpc_perf is 0 and the CPC-inefficiency cause is
returned even though no CPC ratio was computed. -/
theorem insight_guarded_ratio_zero_denominator :
    (∀ df, (colMean (·.targetROAS) df = none ∨ colMean (·.targetROAS) df = some 0) →
        roasPerformance df = some 0) ∧
    (∀ df, (colMean (·.actualCPC) df = none ∨ colMean (·.actualCPC) df = some 0) →
        cpcPerformance df = some 0) ∧
    (∀ df, (colMean (·.targetCTR) df = none ∨ colMean (·.targetCTR) df = some 0) →
        ctrPerformance df = some 0) ∧
    (∀ df r, df ≠ [] →
      (colMean (·.actualCPC) df = none ∨ colMean (·.actualCPC) df = some 0) →
      roasPerformance df = some r → r < 95/100 →
      cpcPerformance df = some 0 ∧ (generate_ai_insight df).1 = Cause.highCPC) := by
  refine ⟨fun df h => perfQuotient_zero_denominator _ _ h,
    fun df h => perfQuotient_zero_denominator _ _ h,
    fun df h => perfQuotient_zero_denominator _ _ h,
    fun df r hne hden hroas hlt => ?_⟩
  have hcpc : cpcPerformance df = some 0 := perfQuotient_zero_denominator _ _ hden
  have hlen : ¬ df.length < 1 := by
    simp [Nat.lt_one_iff, List.length_eq_zero, hne]
  have h1 : nanLt (roasPerformance df) (95/100) = true := by
    rw [hroas]
    simp [nanLt, hlt]
  have h2 : nanLt (cpcPerformance df) (95/100) = true := by
    rw [hcpc]
    simp [nanLt]
  exact ⟨hcpc, by simp [generate_ai_insight, hlen, h1, h2]⟩

/-- Witness for C10: one row with Actual_ROAS 1, Target_ROAS 2 (roas_perf
= 1/2 < 0.95) and a missing Actual_CPC column mean: cpc_perf is 0 and the
CPC cause is returned. -/
theorem insight_guarded_ratio_zero_denominator_witness :
    cpcPerformance [⟨some 1, some 2, none, some 3, none, none⟩] = some 0 ∧
      (generate_ai_insight [⟨some 1, some 2, none, some 3, none, none⟩]).1 =
        Cause.highCPC :=
  insight_guarded_ratio_zero_denominator.2.2.2
    [⟨some 1, some 2, none, some 3, none, none⟩] (1/2) (by simp)
    (Or.inl rfl)
    (by norm_num [roasPerformance, colMean, perfQuotient, List.filterMap_cons,
      List.filterMap_nil])
    (by norm_num)

/-- C1 counterexample: the claim says a raising webhook POST does not
block the status update. But in `resolve_issue` the POST runs inside the
same `try` as the sheet write, before it: with a valid credential file, a
pending issue with Timestamp 1 and a raising POST, `resolve_issue`
returns false and the sheet is unchanged — the row is NOT written
Resolved. -/
theorem resolve_notify_failure_blocks_write_cex :
    resolve_issue ⟨true, true⟩ .raiseErr [mkIssue 1 "Pending"] (mkIssue 1 "Pending") true
      = (false, [mkIssue 1 "Pending"]) ∧
    ¬ ∃ r ∈ (resolve_issue ⟨true, true⟩ .raiseErr [mkIssue 1 "Pending"]
        (mkIssue 1 "Pending") true).2, r.timestamp = 1 ∧ r.status = "Resolved" := by
  constructor
  · rfl
  · decide

/-- C1 amended: in auto mode the status update is NOT protected from a
notification failure: a raising POST aborts the resolve (returns false,
sheet unchanged, the error is surfaced); the Status="Resolved" write to
the row located by the issue's Timestamp happens only when the POST does
not raise. -/
theorem resolve_auto_write_iff_post_ok (env : DeployEnv) (rows : List IssueRow)
    (issue : IssueRow) (hcred : env.localCredFile = true)
    (hfound : rows.any (fun r => r.timestamp = issue.timestamp) = true) :
    resolve_issue env .ok rows issue true = (true, resolveFirst rows issue.timestamp) ∧
    resolve_issue env .raiseErr rows issue true = (false, rows) := by
  constructor
  · simp [resolve_issue, hcred, hfound]
  · simp [resolve_issue]

/-- Witness for C1's amended theorem on a one-row queue. -/
theorem resolve_auto_write_iff_post_ok_witness :
    resolve_issue ⟨false, true⟩ .ok [mkIssue 1 "Pending"] (mkIssue 1 "Pending") true =
      (true, resolveFirst [mkIssue 1 "Pending"] (mkIssue 1 "Pending").timestamp) ∧
    resolve_issue ⟨false, true⟩ .raiseErr [mkIssue 1 "Pending"] (mkIssue 1 "Pending") true =
      (false, [mkIssue 1 "Pending"]) :=
  resolve_auto_write_iff_post_ok ⟨false, true⟩ [mkIssue 1 "Pending"] (mkIssue 1 "Pending")
    rfl (by decide)

/-- C9: `resolve_issue` builds its sheet client from the local credential
file only, never from the deployed secrets; so with deployed secrets
present but no local file, every `resolve_issue` call returns false and
leaves the sheet unchanged, for any POST outcome and either mode, while
`load_live_status` still succeeds through the deployed secrets. -/
theorem resolve_requires_local_cred_file (env : DeployEnv) (rows : List IssueRow)
    (issue : IssueRow) (post : PostOutcome) (auto : Bool)
    (hsec : env.deployedSecrets = true) (hfile : env.localCredFile = false) :
    resolve_issue env post rows issue auto = (false, rows) ∧
    load_live_status env rows = some (rows.filter (fun r => r.status == "Pending")) := by
  constructor
  · cases auto <;> cases post <;> simp [resolve_issue, hfile]
  · simp [load_live_status, hsec]

/-- Witness for C9 on a one-row queue with deployed secrets only. -/
theorem resolve_requires_local_cred_file_witness :
    resolve_issue ⟨true, false⟩ .ok [mkIssue 1 "Pending"] (mkIssue 1 "Pending") false
      = (false, [mkIssue 1 "Pending"]) ∧
    load_live_status ⟨true, false⟩ [mkIssue 1 "Pending"]
      = some ([mkIssue 1 "Pending"].filter (fun r => r.status == "Pending")) :=
  resolve_requires_local_cred_file ⟨true, false⟩ [mkIssue 1 "Pending"] (mkIssue 1 "Pending")
    .ok false rfl rfl

/-- Helper: any Timestamp in the session exclusion list is absent from
every `live_df` listing. -/
theorem live_df_excludes (pending : List IssueRow) (sess : SessionState) (t : ℕ)
    (ht : t ∈ sess.resolved_timestamps) :
    ∀ r ∈ live_df pending sess, r.timestamp ≠ t := by
  intro r hr heq
  have hmem : r ∈ pending.filter
      (fun x => !sess.resolved_timestamps.contains x.timestamp) :=
    List.mem_of_mem_drop hr
  rcases List.mem_filter.mp hmem with ⟨-, hcon⟩
  rw [heq] at hcon
  simp at hcon
  exact hcon ht

/-- C3 counterexample: in manual mode, the claim fails. With a valid
credential file, one pending issue (Timestamp 1) and any prior session
state, a successful manual resolve returns true but RESETS the session
exclusion list to [] and never appends the Timestamp; a subsequent
listing over a stale snapshot (the store not yet reflecting the write)
still shows the issue. -/
theorem manual_resolve_not_excluded_cex :
    (manualResolveStep ⟨true, true⟩ .ok [mkIssue 1 "Pending"] ⟨[99]⟩
        (mkIssue 1 "Pending")).2.2 = true ∧
    (manualResolveStep ⟨true, true⟩ .ok [mkIssue 1 "Pending"] ⟨[99]⟩
        (mkIssue 1 "Pending")).1 = ⟨[]⟩ ∧
    mkIssue 1 "Pending" ∈ live_df [mkIssue 1 "Pending"]
      (manualResolveStep ⟨true, true⟩ .ok [mkIssue 1 "Pending"] ⟨[99]⟩
        (mkIssue 1 "Pending")).1 := by
  refine ⟨rfl, rfl, ?_⟩
  decide

/-- C3 amended: the session-scoped exclusion holds in AUTOMATIC mode
only: when the auto branch's resolve succeeds on the top issue, its
Timestamp is appended to the session exclusion list and every subsequent
listing excludes it, over any (possibly stale) snapshot of the pending
rows; in manual mode the exclusion list is cleared and successful
resolves are not recorded in it. -/
theorem auto_resolve_excludes_from_listing (env : DeployEnv) (post : PostOutcome)
    (sheetRows : List IssueRow) (sess : SessionState) (top : IssueRow)
    (rest rows1 : List IssueRow)
    (hl : live_df ((load_live_status env sheetRows).getD []) sess = top :: rest)
    (hr : resolve_issue env post sheetRows top true = (true, rows1)) :
    (autoResolveStep env post sheetRows sess).1.resolved_timestamps =
      sess.resolved_timestamps ++ [top.timestamp] ∧
    ∀ stale : List IssueRow,
      ∀ r ∈ live_df stale (autoResolveStep env post sheetRows sess).1,
        r.timestamp ≠ top.timestamp := by
  have hstep : autoResolveStep env post sheetRows sess =
      (⟨sess.resolved_timestamps ++ [top.timestamp]⟩, rows1) := by
    simp only [autoResolveStep, hl, hr]
  rw [hstep]
  refine ⟨rfl, fun stale r hrmem => ?_⟩
  exact live_df_excludes stale _ top.timestamp (by simp) r hrmem

/-- Witness for C3's amended theorem: auto-resolving the single pending
issue records Timestamp 1 in the session list and a stale re-listing no
longer contains the issue. -/
theorem auto_resolve_excludes_from_listing_witness :
    (autoResolveStep ⟨true, true⟩ .ok [mkIssue 1 "Pending"] ⟨[]⟩).1.resolved_timestamps =
      [] ++ [(mkIssue 1 "Pending").timestamp] ∧
    mkIssue 1 "Pending" ∉ live_df [mkIssue 1 "Pending"]
      (autoResolveStep ⟨true, true⟩ .ok [mkIssue 1 "Pending"] ⟨[]⟩).1 := by
  have h := auto_resolve_excludes_from_listing ⟨true, true⟩ .ok [mkIssue 1 "Pending"] ⟨[]⟩
    (mkIssue 1 "Pending") [] [mkIssue 1 "Resolved"] (by decide) (by decide)
  exact ⟨h.1, fun hmem => h.2 [mkIssue 1 "Pending"] (mkIssue 1 "Pending") hmem rfl⟩

/-- C8 counterexample: the claim says the pending listing is ordered
most-recent-first. With six pending rows stored in Timestamp order
1..6 (newest appended last, as the queue sheet grows), the listing is
the last five rows IN STORE ORDER, [2, 3, 4, 5, 6] — the most recent
row is last, not first, and the list is not sorted by descending
Timestamp. -/
theorem list_pending_not_most_recent_first_cex :
    (list_pending ⟨true, true⟩
        [mkIssue 1 "Pending", mkIssue 2 "Pending", mkIssue 3 "Pending",
          mkIssue 4 "Pending", mkIssue 5 "Pending", mkIssue 6 "Pending"] ⟨[]⟩).map
      (·.timestamp) = [2, 3, 4, 5, 6] ∧
    ¬ List.Sorted (fun a b : ℕ => b ≤ a)
      ((list_pending ⟨true, true⟩
          [mkIssue 1 "Pending", mkIssue 2 "Pending", mkIssue 3 "Pending",
            mkIssue 4 "Pending", mkIssue 5 "Pending", mkIssue 6 "Pending"] ⟨[]⟩).map
        (·.timestamp)) := by
  constructor
  · decide
  · decide

/-- C8 amended: the pending listing returns only rows with
Status = "Pending" whose Timestamp is not in the session exclusion list,
capped at the last 5 rows, in backing-store order (an order-preserving
sublist of the store; no most-recent-first reordering is applied). -/
theorem list_pending_pending_window (env : DeployEnv) (sheetRows : List IssueRow)
    (sess : SessionState) :
    (∀ r ∈ list_pending env sheetRows sess,
        r.status = "Pending" ∧ r.timestamp ∉ sess.resolved_timestamps) ∧
    (list_pending env sheetRows sess).length ≤ 5 ∧
    (list_pending env sheetRows sess).Sublist sheetRows := by
  by_cases hauth : (env.deployedSecrets || env.localCredFile) = true
  · have hlp : list_pending env sheetRows sess =
        tailN 5 ((sheetRows.filter (fun r => r.status == "Pending")).filter
          (fun r => !sess.resolved_timestamps.contains r.timestamp)) := by
      simp [list_pending, load_live_status, live_df, hauth]
    rw [hlp]
    refine ⟨?_, ?_, ?_⟩
    · intro r hr
      have h2 := List.mem_of_mem_drop hr
      rcases List.mem_filter.mp h2 with ⟨h3, hcon⟩
      rcases List.mem_filter.mp h3 with ⟨-, hst⟩
      refine ⟨by simpa using hst, ?_⟩
      simpa using hcon
    · simp only [tailN, List.length_drop]
      omega
    · exact (List.drop_sublist _ _).trans
        ((List.filter_sublist _).trans (List.filter_sublist _))
  · have hlp : list_pending env sheetRows sess = [] := by
      simp [list_pending, load_live_status, live_df, hauth, tailN]
    rw [hlp]
    exact ⟨by simp, by simp, List.nil_sublist _⟩

/-- Witness for C8's amended theorem on a concrete two-row queue. -/
theorem list_pending_pending_window_witness :
    (list_pending ⟨true, true⟩ [mkIssue 1 "Pending", mkIssue 2 "Resolved"] ⟨[]⟩).length
      ≤ 5 ∧
    (list_pending ⟨true, true⟩ [mkIssue 1 "Pending", mkIssue 2 "Resolved"] ⟨[]⟩).Sublist
      [mkIssue 1 "Pending", mkIssue 2 "Resolved"] :=
  ⟨(list_pending_pending_window ⟨true, true⟩ [mkIssue 1 "Pending", mkIssue 2 "Resolved"]
      ⟨[]⟩).2.1,
    (list_pending_pending_window ⟨true, true⟩ [mkIssue 1 "Pending", mkIssue 2 "Resolved"]
      ⟨[]⟩).2.2⟩

end ITCDash
